import Mathlib

/-!
  Verification development for the question-bank generation pipeline
  (`models.py`, `llm_call.py`, `variate.py`, `verify.py`, `main.py`).

  The Python source is shallowly embedded: pure functions become Lean
  functions, the external model is an explicit oracle argument, fallible
  code returns `Option`/`Except`, and loops become structural recursion.
  Python runtime values flowing through `json.loads` / dynamic code are
  embedded as the inductive `PyVal`.
-/

set_option maxHeartbeats 1000000

/-- Embedding of the Python/JSON values the pipeline manipulates at
runtime (`str`, `int`, `bool`, `None`, `list`, `dict`).  Dict keys are
strings, as produced by `json.loads`; keys are assumed unique, as in a
Python `dict`. -/
inductive PyVal where
  | pstr : String → PyVal
  | pint : Int → PyVal
  | pbool : Bool → PyVal
  | pnone : PyVal
  | plist : List PyVal → PyVal
  | pdict : List (String × PyVal) → PyVal

/-- Char-list core of Python `str.strip()`: drop whitespace from both
ends (Lean's `Char.isWhitespace` stands in for Python's notion of
whitespace). -/
def stripChars (l : List Char) : List Char :=
  ((l.dropWhile Char.isWhitespace).reverse.dropWhile Char.isWhitespace).reverse

/-- Embedding of Python `str.strip()` (no arguments). -/
def pyStrip (s : String) : String :=
  ⟨stripChars s.data⟩

/-- Embedding of Python `sep.join(parts)`. -/
def pyJoin (sep : String) : List String → String
  | [] => ""
  | [x] => x
  | x :: y :: xs => x ++ sep ++ pyJoin sep (y :: xs)

/-- Embedding of Python `dict.get(key)` (returns `None` when the key is
absent); dict keys are unique so first-match lookup is exact. -/
def lookupStr (fs : List (String × PyVal)) (k : String) : Option PyVal :=
  match fs with
  | [] => none
  | (k', v) :: rest => if k' = k then some v else lookupStr rest k

/-- Insertion step for `sortByKey` (ordering by the string key, as
Python's `sorted(d.items())` does for a dict with unique keys). -/
def insertByKey (p : String × PyVal) : List (String × PyVal) → List (String × PyVal)
  | [] => [p]
  | q :: qs => if p.1 ≤ q.1 then p :: q :: qs else q :: insertByKey p qs

/-- Embedding of Python `sorted(d.items())` for a string-keyed dict
(insertion sort by key). -/
def sortByKey : List (String × PyVal) → List (String × PyVal)
  | [] => []
  | p :: ps => insertByKey p (sortByKey ps)

mutual

/-- Embedding of Python `repr()` on embedded values (string quoting is
approximated: inner escaping is not modelled, which is harmless here
because only emptiness and whitespace at the edges matter downstream). -/
def pyRepr : PyVal → String
  | .pstr s => "'" ++ s ++ "'"
  | .pint n => toString n
  | .pbool true => "True"
  | .pbool false => "False"
  | .pnone => "None"
  | .plist xs => "[" ++ pyJoin ", " (pyReprList xs) ++ "]"
  | .pdict fs => "\x7b" ++ pyJoin ", " (pyReprFields fs) ++ "\x7d"

def pyReprList : List PyVal → List String
  | [] => []
  | x :: xs => pyRepr x :: pyReprList xs

def pyReprFields : List (String × PyVal) → List String
  | [] => []
  | (k, v) :: fs => ("'" ++ k ++ "': " ++ pyRepr v) :: pyReprFields fs

end

/-- Embedding of Python `str()`: identity on strings, `repr`-like
rendering otherwise. -/
def pyStr : PyVal → String
  | .pstr s => s
  | v => pyRepr v

mutual

/-- Embedding of `json.dumps(v, ensure_ascii=False)` (string escaping is
approximated; only the surrounding quotes/braces matter downstream). -/
def jsonDumps : PyVal → String
  | .pstr s => "\"" ++ s ++ "\""
  | .pint n => toString n
  | .pbool true => "true"
  | .pbool false => "false"
  | .pnone => "null"
  | .plist xs => "[" ++ pyJoin ", " (jsonDumpsList xs) ++ "]"
  | .pdict fs => "\x7b" ++ pyJoin ", " (jsonDumpsFields fs) ++ "\x7d"

def jsonDumpsList : List PyVal → List String
  | [] => []
  | x :: xs => jsonDumps x :: jsonDumpsList xs

def jsonDumpsFields : List (String × PyVal) → List String
  | [] => []
  | (k, v) :: fs => ("\"" ++ k ++ "\": " ++ jsonDumps v) :: jsonDumpsFields fs

end

/-! ## `variate.py` — `_normalize_variation_item` and the per-question
variation pipeline -/

/-- The `for key in (...) ... else: base = ""` loop of
`_normalize_variation_item`: first key whose value is a string with
non-empty strip wins. -/
def textFieldFromKeys (fs : List (String × PyVal)) : List String → String
  | [] => ""
  | k :: ks =>
    match lookupStr fs k with
    | some (.pstr v) => if pyStrip v ≠ "" then pyStrip v else textFieldFromKeys fs ks
    | _ => textFieldFromKeys fs ks

/-- The priority-ordered text-field search of `_normalize_variation_item`. -/
def textFieldBase (fs : List (String × PyVal)) : String :=
  textFieldFromKeys fs ["question", "variation_text", "variation", "text", "prompt"]

/-- The bundled-variation extraction of `_normalize_variation_item`:
`[str(value).strip() for key, value in sorted(item.items()) if
key.startswith("variation_") and str(value).strip()]`. -/
def variationValues (fs : List (String × PyVal)) : List String :=
  (((sortByKey fs).filter (fun kv => kv.1.startsWith "variation_")).map
      (fun kv => pyStrip (pyStr kv.2))).filter (fun s => s ≠ "")

/-- `f"{base} | {piece}" if base else f"{piece}"`. -/
def appendLabeled (base piece : String) : String :=
  if base ≠ "" then base ++ " | " ++ piece else piece

/-- The base-text assembly of `_normalize_variation_item` after the
bundled-variation branch: text field, then (for MCQs) options and
answer, then reference points, then reference answer. -/
def normalizeDictBase (fs : List (String × PyVal)) (question_type : String) : String :=
  let base0 := textFieldBase fs
  let base1 :=
    if question_type = "MCQ" then
      let baseOpts :=
        match lookupStr fs "options" with
        | some (.plist opts) =>
          let option_text :=
            pyJoin "; " ((opts.map (fun o => pyStrip (pyStr o))).filter (fun s => s ≠ ""))
          if option_text ≠ "" then appendLabeled base0 ("Options: " ++ option_text) else base0
        | _ => base0
      match lookupStr fs "answer" with
      | some (.pstr a) =>
        if pyStrip a ≠ "" then appendLabeled baseOpts ("Answer: " ++ pyStrip a) else baseOpts
      | _ => baseOpts
    else base0
  let base2 :=
    match lookupStr fs "reference_points" with
    | some (.plist pts) =>
      let outline :=
        pyJoin "; " ((pts.map (fun p => pyStrip (pyStr p))).filter (fun s => s ≠ ""))
      if outline ≠ "" then appendLabeled base1 ("Key points: " ++ outline) else base1
    | _ => base1
  match lookupStr fs "reference_answer" with
  | some (.pstr ra) =>
    if pyStrip ra ≠ "" then
      (if base2 ≠ "" then base2 ++ " | Reference answer: " ++ pyStrip ra else pyStrip ra)
    else base2
  | _ => base2

/-- Embedding of `_normalize_variation_item` (`variate.py`). -/
def normalizeVariationItem (item : PyVal) (question_type : String) : String :=
  match item with
  | .pstr s => pyStrip s
  | .pdict fs =>
    if fs.any (fun kv => kv.1.startsWith "variation_") then
      if variationValues fs ≠ [] then
        pyJoin " | " (variationValues fs)
      else
        let base := normalizeDictBase fs question_type
        if base ≠ "" then base else jsonDumps (.pdict fs)
    else
      let base := normalizeDictBase fs question_type
      if base ≠ "" then base else jsonDumps (.pdict fs)
  | other => pyStrip (pyStr other)

/-- `generate_variations_for_question`: unwrap the raw variation list
from the model response (`response['variations']` when present, wrap a
non-list in a singleton). -/
def rawVariationsFromResponse (response : PyVal) : List PyVal :=
  let rv :=
    match response with
    | .pdict fs =>
      match lookupStr fs "variations" with
      | some v => v
      | none => response
    | _ => response
  match rv with
  | .plist xs => xs
  | other => [other]

/-- `generate_variations_for_question`: normalize every raw item and
keep the non-empty results, in order. -/
def extractValidVariations (question_type : String) (raw : List PyVal) : List String :=
  (raw.map (fun item => normalizeVariationItem item question_type)).filter
    (fun s => s ≠ "")

/-- `variations[0] if variations else question_text`. -/
def headOrDefault (vars : List String) (question_text : String) : String :=
  match vars with
  | [] => question_text
  | v :: _ => v

/-- The `while len(variations) < 5: variations.append(...)` padding loop
of `generate_variations_for_question`. -/
def padVariations (question_text : String) (vars : List String) : List String :=
  if vars.length < 5 then
    padVariations question_text (vars ++ [headOrDefault vars question_text])
  else vars
termination_by 5 - vars.length
decreasing_by simp [List.length_append]; omega

/-- Embedding of the post-response section of
`generate_variations_for_question` (`variate.py` lines 163–188):
extract, normalize, filter, pad to 5, truncate to 5. -/
def generateVariationsResult (question_type question_text : String) (response : PyVal) :
    List String :=
  let variations := extractValidVariations question_type (rawVariationsFromResponse response)
  let variations :=
    if variations.length < 5 then padVariations question_text variations else variations
  variations.take 5

/-! ## `models.py` — the question-bank data model -/

/-- `Literal["remember", "understand", "apply", "analyze", "evaluate",
"create"]`. -/
inductive Bloom where
  | remember | understand | apply | analyze | evaluate | create
deriving Repr, DecidableEq

/-- `MCQQuestion` (`models.py`). -/
structure MCQQuestion where
  question : String
  options : List String
  answer : String
  explanation : String
  variations : List String := []
deriving Repr, DecidableEq

/-- `FillInBlankQuestion` (`models.py`). -/
structure FillInBlankQuestion where
  question : String
  answer : String
  variations : List String := []
deriving Repr, DecidableEq

/-- `ShortAnswerQuestion` (`models.py`). -/
structure ShortAnswerQuestion where
  question : String
  reference_answer : String
  variations : List String := []
deriving Repr, DecidableEq

/-- `LongAnswerQuestion` (`models.py`); `reference_answer` is
`Optional[str]` with default `""`. -/
structure LongAnswerQuestion where
  question : String
  reference_points : List String := []
  reference_answer : Option String := some ""
  variations : List String := []
deriving Repr, DecidableEq

/-- Python truthiness of an `Optional[str]`: `None` and `""` are falsy.
Used for `if model.reference_answer:`. -/
def pyTruthyOptStr : Option String → Bool
  | none => false
  | some s => s ≠ ""

/-- Embedding of the `@model_validator` `_ensure_reference_content` of
`LongAnswerQuestion`: `none` models a raised `ValueError` (the input is
rejected), `some` carries the possibly-rewritten model pydantic
returns. -/
def ensureReferenceContent (m : LongAnswerQuestion) : Option LongAnswerQuestion :=
  let points := (m.reference_points.map pyStrip).filter (fun p => p ≠ "")
  if points ≠ [] then
    if 3 ≤ points.length ∧ points.length ≤ 6 then
      some { m with
              reference_points := points,
              reference_answer :=
                if pyTruthyOptStr m.reference_answer then some "" else m.reference_answer }
    else none
  else if pyTruthyOptStr m.reference_answer ∧
          pyStrip (m.reference_answer.getD "") ≠ "" then
    some m
  else none

/-- The typed bloom-group container (`MCQBloomGroup`,
`FillBlankBloomGroup`, `ShortAnswerBloomGroup`, `LongAnswerBloomGroup`
are the four instantiations). -/
structure BloomGroup (Q : Type) where
  bloom_taxonomy : Bloom
  questions : List Q
deriving Repr, DecidableEq

/-- `TopicQuestions` (`models.py`). -/
structure TopicQuestions where
  topic : String
  content : Option String := none
  MCQs : List (BloomGroup MCQQuestion)
  fill_in_the_blanks : List (BloomGroup FillInBlankQuestion)
  short_answer : List (BloomGroup ShortAnswerQuestion)
  long_answer : List (BloomGroup LongAnswerQuestion)
deriving Repr, DecidableEq

/-- `ChapterQuestions` (`models.py`); `total_topics` is a Python `int`. -/
structure ChapterQuestions where
  class_name : String
  subject_name : String
  chapter_name : String
  total_topics : Int
  topics : List TopicQuestions
deriving Repr, DecidableEq

/-- Parse a pydantic `str` field from an embedded Python value (pydantic
v2 does not coerce non-strings into `str`). -/
def parsePyStr : PyVal → Option String
  | .pstr s => some s
  | _ => none

/-- Parse a pydantic `List[str]` field. -/
def parsePyStrList : PyVal → Option (List String)
  | .plist xs => xs.mapM parsePyStr
  | _ => none

/-- Embedding of pydantic schema validation for `MCQQuestion`
(`MCQQuestion.model_validate`): required `str` fields `question`,
`answer`, `explanation`; `options` a `List[str]` with
`min_length=4, max_length=4`; `variations` a `List[str]` defaulting to
`[]`.  These length bounds are the only constraint on `options`. -/
def MCQQuestion.validate (v : PyVal) : Option MCQQuestion :=
  match v with
  | .pdict fs =>
    match (lookupStr fs "question").bind parsePyStr with
    | none => none
    | some q =>
      match (lookupStr fs "options").bind parsePyStrList with
      | none => none
      | some opts =>
        if 4 ≤ opts.length ∧ opts.length ≤ 4 then
          match (lookupStr fs "answer").bind parsePyStr with
          | none => none
          | some ans =>
            match (lookupStr fs "explanation").bind parsePyStr with
            | none => none
            | some expl =>
              match
                (match lookupStr fs "variations" with
                  | none => some []
                  | some pv => parsePyStrList pv) with
              | none => none
              | some vars =>
                some { question := q, options := opts, answer := ans,
                       explanation := expl, variations := vars }
        else none
  | _ => none

/-- The pydantic field constraints on an already-typed `MCQQuestion`:
`options` has `min_length=4, max_length=4` and nothing else. -/
def MCQQuestion.validShape (q : MCQQuestion) : Bool :=
  q.options.length = 4

/-- Field constraints of the four `*BloomGroup` models: `questions` has
`min_length=1`, and each question satisfies its own constraints. -/
def groupValidShape {Q : Type} (questionOk : Q → Bool) (g : BloomGroup Q) : Bool :=
  1 ≤ g.questions.length && g.questions.all questionOk

/-- A `LongAnswerQuestion` value is accepted by validation exactly when
it is a fixpoint of its model validator (the validator is idempotent, so
its image is its set of fixpoints). -/
def LongAnswerQuestion.accepted (q : LongAnswerQuestion) : Bool :=
  ensureReferenceContent q = some q

/-- Field constraints of `TopicQuestions`: the four per-type sequences
each have `min_length=6, max_length=6`, each group non-empty, each
question satisfying its own validation. -/
def TopicQuestions.validShape (t : TopicQuestions) : Bool :=
  t.MCQs.length = 6 && t.MCQs.all (groupValidShape MCQQuestion.validShape) &&
  t.fill_in_the_blanks.length = 6 &&
    t.fill_in_the_blanks.all (groupValidShape (fun _ => true)) &&
  t.short_answer.length = 6 && t.short_answer.all (groupValidShape (fun _ => true)) &&
  t.long_answer.length = 6 &&
    t.long_answer.all (groupValidShape LongAnswerQuestion.accepted)

/-- Field constraints of `ChapterQuestions`: `total_topics: int` with
`ge=1`, `topics` with `min_length=1`, each topic valid.  No constraint
relates `total_topics` to `len(topics)`. -/
def ChapterQuestions.validShape (c : ChapterQuestions) : Bool :=
  1 ≤ c.total_topics && 1 ≤ c.topics.length && c.topics.all TopicQuestions.validShape

/-! ## `variate.py` — `add_variations_to_chapter`

The external model is abstracted as an oracle `gen : Nat → List String`
giving the result of the `n`-th `generate_variations_for_question` call
(which returns `[]` when the call errors out); a call counter is
threaded through so "number of model calls issued" is observable. -/

/-- One question of the inner loop: `if not question.variations:
question.variations = generate_variations_for_question(...)`.  The
getter/setter pair abstracts the `variations` field shared by the four
question types. -/
def updateQuestionVars {Q : Type} (getV : Q → List String) (setV : Q → List String → Q)
    (gen : Nat → List String) (q : Q) (n : Nat) : Q × Nat :=
  if getV q = [] then (setV q (gen n), n + 1) else (q, n)

/-- The `for question in bloom_group.questions` loop. -/
def updateQuestionsVars {Q : Type} (getV : Q → List String) (setV : Q → List String → Q)
    (gen : Nat → List String) : List Q → Nat → List Q × Nat
  | [], n => ([], n)
  | q :: qs, n =>
    let (q', n') := updateQuestionVars getV setV gen q n
    let (qs', n'') := updateQuestionsVars getV setV gen qs n'
    (q' :: qs', n'')

/-- The `for bloom_group in ...` loop over one of the four sections. -/
def updateGroupsVars {Q : Type} (getV : Q → List String) (setV : Q → List String → Q)
    (gen : Nat → List String) : List (BloomGroup Q) → Nat → List (BloomGroup Q) × Nat
  | [], n => ([], n)
  | g :: gs, n =>
    let (qs', n') := updateQuestionsVars getV setV gen g.questions n
    let (gs', n'') := updateGroupsVars getV setV gen gs n'
    ({ g with questions := qs' } :: gs', n'')

/-- The body of the per-topic loop of `add_variations_to_chapter`: the
four sections in source order (MCQs, fill-in-the-blanks, short answer,
long answer). -/
def addVariationsToTopic (gen : Nat → List String) (t : TopicQuestions) (n : Nat) :
    TopicQuestions × Nat :=
  let (m, n1) := updateGroupsVars MCQQuestion.variations
      (fun q v => { q with variations := v }) gen t.MCQs n
  let (f, n2) := updateGroupsVars FillInBlankQuestion.variations
      (fun q v => { q with variations := v }) gen t.fill_in_the_blanks n1
  let (s, n3) := updateGroupsVars ShortAnswerQuestion.variations
      (fun q v => { q with variations := v }) gen t.short_answer n2
  let (l, n4) := updateGroupsVars LongAnswerQuestion.variations
      (fun q v => { q with variations := v }) gen t.long_answer n3
  ({ t with MCQs := m, fill_in_the_blanks := f, short_answer := s, long_answer := l }, n4)

/-- The `for topic in questions_data.topics` loop. -/
def addVariationsToTopics (gen : Nat → List String) :
    List TopicQuestions → Nat → List TopicQuestions × Nat
  | [], n => ([], n)
  | t :: ts, n =>
    let (t', n') := addVariationsToTopic gen t n
    let (ts', n'') := addVariationsToTopics gen ts n'
    (t' :: ts', n'')

/-- Embedding of `add_variations_to_chapter` (`variate.py`): mutates
each question's `variations` in place (modelled functionally) and
returns the updated chapter together with the new call count. -/
def addVariationsToChapter (gen : Nat → List String) (c : ChapterQuestions) (n : Nat) :
    ChapterQuestions × Nat :=
  let (ts, n') := addVariationsToTopics gen c.topics n
  ({ c with topics := ts }, n')

/-- Every question in a topic already carries a non-empty `variations`
sequence. -/
def TopicQuestions.allHaveVariations (t : TopicQuestions) : Bool :=
  t.MCQs.all (fun g => g.questions.all (fun q => !(q.variations = []))) &&
  t.fill_in_the_blanks.all (fun g => g.questions.all (fun q => !(q.variations = []))) &&
  t.short_answer.all (fun g => g.questions.all (fun q => !(q.variations = []))) &&
  t.long_answer.all (fun g => g.questions.all (fun q => !(q.variations = [])))

/-- Every question in a chapter already carries a non-empty `variations`
sequence. -/
def ChapterQuestions.allHaveVariations (c : ChapterQuestions) : Bool :=
  c.topics.all TopicQuestions.allHaveVariations

/-! ## `verify.py` — chapter-level verdict -/

/-- `Literal["excellent", "good", "fair", "poor"]`. -/
inductive Quality where
  | excellent | good | fair | poor
deriving Repr, DecidableEq

/-- `QuestionIssue` (`models.py`); the issue type and severity literals
are irrelevant to the verdict and kept as strings. -/
structure QuestionIssue where
  issue_type : String
  description : String
  severity : String
deriving Repr, DecidableEq

/-- `QuestionVerification` (`models.py`). -/
structure QuestionVerification where
  question_index : Int
  is_valid : Bool
  issues : List QuestionIssue := []
  suggestion : Option String := none
deriving Repr, DecidableEq

/-- `TopicVerification` (`models.py`). -/
structure TopicVerification where
  topic : String
  mcq_verifications : List QuestionVerification := []
  fill_blank_verifications : List QuestionVerification := []
  short_answer_verifications : List QuestionVerification := []
  long_answer_verifications : List QuestionVerification := []
  overall_quality : Quality
  has_duplicates : Bool
deriving Repr, DecidableEq

/-- `ChapterVerification` (`models.py`). -/
structure ChapterVerification where
  chapter_name : String
  topic_verifications : List TopicVerification
  overall_pass : Bool
  total_issues : Int
deriving Repr, DecidableEq

/-- The `overall_pass` loop of `verify_chapter_questions` (`verify.py`
lines 109–117): start at `True`, break to `False` on the first topic
rated poor/fair or flagged with duplicates. -/
def overallPassLoop : List TopicVerification → Bool
  | [] => true
  | v :: rest =>
    if v.overall_quality = Quality.poor ∨ v.overall_quality = Quality.fair then false
    else if v.has_duplicates then false
    else overallPassLoop rest

/-- The issue tally of `verify_chapter_questions`: total issues across
the four per-type verification lists of every topic. -/
def totalIssuesOf (vs : List TopicVerification) : Int :=
  vs.foldl
    (fun acc v =>
      acc +
        ((v.mcq_verifications ++ v.fill_blank_verifications ++
            v.short_answer_verifications ++ v.long_answer_verifications).foldl
          (fun a qv => a + (qv.issues.length : Int)) 0))
    0

/-- Embedding of `verify_chapter_questions` (`verify.py`) given the
per-topic verification results (each the outcome of one model call, or
the synthetic worst-case fallback). -/
def verifyChapterQuestions (chapter_name : String) (verifs : List TopicVerification) :
    ChapterVerification :=
  { chapter_name := chapter_name,
    topic_verifications := verifs,
    overall_pass := overallPassLoop verifs,
    total_issues := totalIssuesOf verifs }

/-! ## `llm_call.py` — `LLMClient.generate_structured`

Each attempt of the retry loop is abstracted as an oracle
`Nat → Except String α` (success with a schema-valid value, or the
exception message of that attempt); attempts are independent. -/

/-- The `for attempt in range(max_retries)` loop of
`generate_structured`, from attempt index `attempt` with `remaining`
iterations left.  Result: `some (.ok a)` models a return, `some
(.error msg)` models the final `raise ValueError(...)`, `none` models
falling off the loop (only possible when `max_retries = 0`, where the
Python function returns `None`).  The second component counts model
attempts made. -/
def generateStructuredGo {α : Type} (oracle : Nat → Except String α) :
    Nat → Nat → Option (Except String α) × Nat
  | _, 0 => (none, 0)
  | attempt, r + 1 =>
    match oracle attempt with
    | .ok a => (some (.ok a), 1)
    | .error e =>
      if r = 0 then
        (some (.error ("Failed to generate valid response: " ++ e)), 1)
      else
        let (res, n) := generateStructuredGo oracle (attempt + 1) r
        (res, n + 1)

/-- Embedding of `LLMClient.generate_structured` (`llm_call.py`): run up
to `max_retries` independent attempts, returning the first success or
raising after the last failure with the last underlying error. -/
def generateStructured {α : Type} (oracle : Nat → Except String α) (max_retries : Nat) :
    Option (Except String α) × Nat :=
  generateStructuredGo oracle 0 max_retries

/-! ## `main.py` — `process_chapter` and the multi-chapter summary -/

/-- The STAGE 1 loop of `process_chapter` (`main.py` lines 316–334):
each topic's `generate_questions_for_topic` outcome is given as an
`Except` (exception message or generated questions); the loop appends
successes and returns `False` for the whole chapter on the first
exception.  Result: `none` models `return False`; the count is the
number of topics attempted. -/
def generationStage : List (Except String TopicQuestions) →
    Option (List TopicQuestions) × Nat
  | [] => (some [], 0)
  | o :: rest =>
    match o with
    | .ok q =>
      match generationStage rest with
      | (some qs, n) => (some (q :: qs), n + 1)
      | (none, n) => (none, n + 1)
    | .error _ => (none, 1)

/-- The `ChapterQuestions(...)` construction of `process_chapter`
(`main.py` lines 337–343): `total_topics=len(topic_questions)`. -/
def buildChapterQuestions (class_name subject_name chapter_name : String)
    (topic_questions : List TopicQuestions) : ChapterQuestions :=
  { class_name := class_name,
    subject_name := subject_name,
    chapter_name := chapter_name,
    total_topics := (topic_questions.length : Int),
    topics := topic_questions }

/-- The inputs `process_chapter` consults, with every external effect
(file probes, parsed syllabus, per-topic generation outcomes) made
explicit.  Stages 2 and 3 wrap their work in `try/except` and never
change the return value, so they do not appear. -/
structure ChapterEnv where
  questionsExists : Bool
  chapterInfoOk : Bool
  syllabusOk : Bool
  chapterFoundInSyllabus : Bool
  topicsList : List String
  topicOutcomes : List (Except String TopicQuestions)

/-- Embedding of the control flow of `process_chapter` (`main.py`):
skip-if-exists short-circuits to `True`; missing chapter info, missing
syllabus, unmatched chapter, or an empty topic list return `False`; the
generation stage returns `False` on its first failing topic; otherwise
the chapter completes with `True` (verification and variation failures
are caught and logged). -/
def processChapter (skip_if_exists : Bool) (env : ChapterEnv) : Bool :=
  if skip_if_exists && env.questionsExists then true
  else if !env.chapterInfoOk then false
  else if !env.syllabusOk then false
  else if !env.chapterFoundInSyllabus then false
  else if env.topicsList = [] then false
  else
    match (generationStage env.topicOutcomes).1 with
    | none => false
    | some _ => true

/-- One chapter's view from the summary loop of `main` (`main.py` lines
481–495): `success = none` models `process_chapter` raising,
`questionsSize` is `questions.json`'s size when the counters are
updated. -/
structure ChapterRun where
  success : Option Bool
  questionsSize : Nat
deriving Repr, DecidableEq

/-- The processed/skipped/failed tally of `main` (`main.py` lines
481–495): a successful chapter counts as processed when
`questions.json` is non-empty and as skipped when it has size zero; a
`False` return or an exception counts as failed. -/
def mainTally (runs : List ChapterRun) : Nat × Nat × Nat :=
  runs.foldl
    (fun acc r =>
      match r.success with
      | some true =>
        if r.questionsSize > 0 then (acc.1 + 1, acc.2.1, acc.2.2)
        else (acc.1, acc.2.1 + 1, acc.2.2)
      | some false => (acc.1, acc.2.1, acc.2.2 + 1)
      | none => (acc.1, acc.2.1, acc.2.2 + 1))
    (0, 0, 0)

/-- A reference-points list contains at least one entry that is
non-blank after stripping. -/
def hasNonblankEntry (l : List String) : Bool :=
  l.any (fun s => pyStrip s ≠ "")

/-- An optional reference answer is non-blank after stripping (`None`
counts as blank). -/
def optNonblank : Option String → Bool
  | none => false
  | some s => pyStrip s ≠ ""

/-! ## Concrete sample values used by counterexamples and witnesses -/

/-- A schema-valid MCQ whose `variations` are already populated. -/
def sampleMCQ : MCQQuestion :=
  { question := "q", options := ["a", "b", "c", "d"], answer := "a",
    explanation := "e", variations := ["v"] }

/-- A fill-in-the-blank question with populated `variations`. -/
def sampleFill : FillInBlankQuestion :=
  { question := "q", answer := "a", variations := ["v"] }

/-- A short-answer question with populated `variations`. -/
def sampleShort : ShortAnswerQuestion :=
  { question := "q", reference_answer := "ra", variations := ["v"] }

/-- A long-answer question with three reference points, accepted by the
model validator as a fixpoint. -/
def sampleLong : LongAnswerQuestion :=
  { question := "q", reference_points := ["p1", "p2", "p3"],
    reference_answer := some "", variations := ["v"] }

/-- A topic that passes every pydantic field constraint: six Bloom
groups per question type, one valid question per group. -/
def sampleTopicValid : TopicQuestions :=
  { topic := "t", content := none,
    MCQs := List.replicate 6 { bloom_taxonomy := Bloom.remember, questions := [sampleMCQ] },
    fill_in_the_blanks :=
      List.replicate 6 { bloom_taxonomy := Bloom.remember, questions := [sampleFill] },
    short_answer :=
      List.replicate 6 { bloom_taxonomy := Bloom.remember, questions := [sampleShort] },
    long_answer :=
      List.replicate 6 { bloom_taxonomy := Bloom.remember, questions := [sampleLong] } }

/-- A chapter whose every question already carries non-empty
`variations`. -/
def sampleChapterVaried : ChapterQuestions :=
  { class_name := "Class 10", subject_name := "Science", chapter_name := "ch",
    total_topics := 1, topics := [sampleTopicValid] }

/-- A chapter passing all pydantic constraints whose `total_topics`
disagrees with `len(topics)`. -/
def badChapter : ChapterQuestions :=
  { class_name := "Class 10", subject_name := "Science", chapter_name := "ch",
    total_topics := 5, topics := [sampleTopicValid, sampleTopicValid] }

/-- A dict accepted by `MCQQuestion` schema validation although its four
options are all identical and its answer matches none of them. -/
def badMCQDict : PyVal :=
  PyVal.pdict
    [("question", PyVal.pstr "Q?"),
     ("options", PyVal.plist [PyVal.pstr "x", PyVal.pstr "x", PyVal.pstr "x", PyVal.pstr "x"]),
     ("answer", PyVal.pstr "z"),
     ("explanation", PyVal.pstr "e")]

/-- A long-answer input whose `reference_points` are all whitespace and
whose legacy `reference_answer` is non-empty: accepted unchanged by the
model validator. -/
def badLongAnswer : LongAnswerQuestion :=
  { question := "q", reference_points := ["   "], reference_answer := some "ans",
    variations := [] }

/-- `.ok`-ness of a topic generation outcome. -/
def isOkOutcome {α : Type} : Except String α → Bool
  | .ok _ => true
  | .error _ => false

/-! ## Helper lemmas -/

theorem string_append_ne_empty_left (a b : String) (h : a ≠ "") : a ++ b ≠ "" := by
  intro hc
  apply h
  have hd : (a ++ b).data = ([] : List Char) := by rw [hc]
  rw [String.data_append] at hd
  rcases List.append_eq_nil.mp hd with ⟨ha, _⟩
  exact String.ext ha

theorem pyJoin_cons_ne_empty (sep : String) (x : String) (xs : List String) (h : x ≠ "") :
    pyJoin sep (x :: xs) ≠ "" := by
  cases xs with
  | nil => simp only [pyJoin]; exact h
  | cons y ys =>
    simp only [pyJoin]
    exact string_append_ne_empty_left _ _ (string_append_ne_empty_left _ _ h)

theorem filter_ne_empty_mem (l : List String) (x : String)
    (hx : x ∈ l.filter (fun s => s ≠ "")) : x ≠ "" := by
  have := List.of_mem_filter hx
  simpa using this

theorem stripChars_eq_rdropWhile (l : List Char) :
    stripChars l = List.rdropWhile Char.isWhitespace (l.dropWhile Char.isWhitespace) := by
  simp [stripChars, List.rdropWhile]

theorem dropWhile_rdropWhile_of_self {α : Type} (p : α → Bool) (m : List α)
    (hm : m.dropWhile p = m) :
    (List.rdropWhile p m).dropWhile p = List.rdropWhile p m := by
  rw [List.dropWhile_eq_self_iff]
  intro h0
  have hpre : List.rdropWhile p m <+: m := List.rdropWhile_prefix p m
  have hlen : 0 < m.length := lt_of_lt_of_le h0 hpre.length_le
  have hget : (List.rdropWhile p m).get ⟨0, h0⟩ = m.get ⟨0, hlen⟩ := by
    simpa [List.get_eq_getElem] using hpre.getElem h0
  rw [hget]
  exact (List.dropWhile_eq_self_iff.mp hm) hlen

theorem stripChars_idem (l : List Char) : stripChars (stripChars l) = stripChars l := by
  rw [stripChars_eq_rdropWhile l, stripChars_eq_rdropWhile]
  rw [dropWhile_rdropWhile_of_self Char.isWhitespace _ (List.dropWhile_idempotent _ _)]
  exact List.rdropWhile_idempotent _ _

theorem pyStrip_idem (s : String) : pyStrip (pyStrip s) = pyStrip s := by
  show (⟨stripChars (⟨stripChars s.data⟩ : String).data⟩ : String) = _
  rw [show ((⟨stripChars s.data⟩ : String).data) = stripChars s.data from rfl,
    stripChars_idem]
  rfl

theorem variationValues_mem_ne_empty (fs : List (String × PyVal)) (x : String)
    (hx : x ∈ variationValues fs) : x ≠ "" := by
  simp only [variationValues] at hx
  exact filter_ne_empty_mem _ x hx

theorem jsonDumps_pdict_ne_empty (fs : List (String × PyVal)) :
    jsonDumps (PyVal.pdict fs) ≠ "" := by
  simp only [jsonDumps]
  exact string_append_ne_empty_left "\x7b" _ (by decide)

theorem normalize_pdict_ne_empty (fs : List (String × PyVal)) (qt : String) :
    normalizeVariationItem (PyVal.pdict fs) qt ≠ "" := by
  simp only [normalizeVariationItem]
  by_cases h1 : fs.any (fun kv => kv.1.startsWith "variation_")
  · rw [if_pos h1]
    by_cases h2 : variationValues fs ≠ []
    · rw [if_pos h2]
      obtain ⟨x, xs, hx⟩ : ∃ x xs, variationValues fs = x :: xs := by
        cases hvv : variationValues fs with
        | nil => exact absurd hvv h2
        | cons a as => exact ⟨a, as, rfl⟩
      rw [hx]
      exact pyJoin_cons_ne_empty _ _ _
        (variationValues_mem_ne_empty fs x (by rw [hx]; exact List.mem_cons_self x xs))
    · rw [if_neg h2]
      by_cases h3 : normalizeDictBase fs qt ≠ ""
      · rw [if_pos h3]; exact h3
      · rw [if_neg h3]; exact jsonDumps_pdict_ne_empty fs
  · rw [if_neg h1]
    by_cases h3 : normalizeDictBase fs qt ≠ ""
    · rw [if_pos h3]; exact h3
    · rw [if_neg h3]; exact jsonDumps_pdict_ne_empty fs

theorem padVariations_stop (question_text : String) (vars : List String)
    (h : ¬ vars.length < 5) : padVariations question_text vars = vars := by
  rw [padVariations]
  simp [h]

theorem padVariations_grow (question_text : String) (vars : List String)
    (h : vars.length < 5) :
    padVariations question_text vars =
      padVariations question_text (vars ++ [headOrDefault vars question_text]) := by
  conv_lhs => rw [padVariations]
  simp [h]

/-! ## Claim C7 — the variation normalizer -/

/-- C7 counterexample: the claim states that `_normalize_variation_item`
returns a non-empty string for any input, except that an input
normalizing to empty text with no fallback field yields the JSON
rendering.  The whitespace-only string input `"   "` refutes this:
the result is the empty string, which is also not the JSON rendering. -/
theorem normalizer_empty_string_counterexample :
    normalizeVariationItem (PyVal.pstr "   ") "MCQ" = "" ∧
    jsonDumps (PyVal.pstr "   ") ≠ "" := by
  constructor
  · decide
  · decide

/-- C7 (amended): the normalizer is total and pure by construction; for
every record (dict) input it returns a non-empty string (falling back to
the JSON rendering when no usable field is found); for a plain string
input it returns the stripped input — which is empty exactly when the
input is whitespace-only — rather than a JSON rendering; non-string
scalar inputs (`None`, booleans) also yield non-empty strings. -/
theorem normalizer_totality_amended :
    (∀ (s question_type : String),
        normalizeVariationItem (PyVal.pstr s) question_type = pyStrip s) ∧
    (∀ (fs : List (String × PyVal)) (question_type : String),
        normalizeVariationItem (PyVal.pdict fs) question_type ≠ "") ∧
    (∀ question_type : String, normalizeVariationItem PyVal.pnone question_type ≠ "") ∧
    (∀ (b : Bool) (question_type : String),
        normalizeVariationItem (PyVal.pbool b) question_type ≠ "") := by
  refine ⟨fun s qt => rfl, normalize_pdict_ne_empty,
    fun qt => (by decide : pyStrip (pyStr PyVal.pnone) ≠ ""),
    fun b qt => ?_⟩
  cases b
  · exact (by decide : pyStrip (pyStr (PyVal.pbool false)) ≠ "")
  · exact (by decide : pyStrip (pyStr (PyVal.pbool true)) ≠ "")

/-! ## Claim C5 — shortfall padding -/

/-- C5: shortfall padding in `generate_variations_for_question`
(`variate.py` lines 163–188): when normalization yields exactly 3 valid
strings `[a, b, c]`, the output is `[a, b, c, a, a]`; when it yields
none, the output is five copies of the original question text. -/
theorem variation_shortfall_padding (question_type question_text : String)
    (response : PyVal) (a b c : String) :
    (extractValidVariations question_type (rawVariationsFromResponse response) = [a, b, c] →
      generateVariationsResult question_type question_text response = [a, b, c, a, a]) ∧
    (extractValidVariations question_type (rawVariationsFromResponse response) = [] →
      generateVariationsResult question_type question_text response =
        [question_text, question_text, question_text, question_text, question_text]) := by
  constructor
  · intro h
    simp only [generateVariationsResult, h]
    rw [if_pos (by simp)]
    have e1 : padVariations question_text [a, b, c] =
        padVariations question_text [a, b, c, a] := by
      rw [padVariations_grow _ _ (by simp)]; rfl
    have e2 : padVariations question_text [a, b, c, a] =
        padVariations question_text [a, b, c, a, a] := by
      rw [padVariations_grow _ _ (by simp)]; rfl
    have e3 : padVariations question_text [a, b, c, a, a] = [a, b, c, a, a] :=
      padVariations_stop _ _ (by simp)
    rw [e1, e2, e3]
    rfl
  · intro h
    simp only [generateVariationsResult, h]
    rw [if_pos (by simp)]
    have e0 : padVariations question_text [] =
        padVariations question_text [question_text] := by
      rw [padVariations_grow _ _ (by simp)]; rfl
    have e1 : padVariations question_text [question_text] =
        padVariations question_text [question_text, question_text] := by
      rw [padVariations_grow _ _ (by simp)]; rfl
    have e2 : padVariations question_text [question_text, question_text] =
        padVariations question_text [question_text, question_text, question_text] := by
      rw [padVariations_grow _ _ (by simp)]; rfl
    have e3 : padVariations question_text
          [question_text, question_text, question_text] =
        padVariations question_text
          [question_text, question_text, question_text, question_text] := by
      rw [padVariations_grow _ _ (by simp)]; rfl
    have e4 : padVariations question_text
          [question_text, question_text, question_text, question_text] =
        padVariations question_text
          [question_text, question_text, question_text, question_text, question_text] := by
      rw [padVariations_grow _ _ (by simp)]; rfl
    have e5 : padVariations question_text
          [question_text, question_text, question_text, question_text, question_text] =
        [question_text, question_text, question_text, question_text, question_text] :=
      padVariations_stop _ _ (by simp)
    rw [e0, e1, e2, e3, e4, e5]
    rfl

/-- C5 witness: the padding theorem applied to a concrete 3-variation
response and to the unusable-response case. -/
theorem variation_shortfall_padding_witness :
    generateVariationsResult "MCQ" "orig"
        (PyVal.plist [PyVal.pstr "a", PyVal.pstr "b", PyVal.pstr "c"]) =
      ["a", "b", "c", "a", "a"] ∧
    generateVariationsResult "MCQ" "orig" (PyVal.plist []) =
      ["orig", "orig", "orig", "orig", "orig"] := by
  constructor
  · exact (variation_shortfall_padding "MCQ" "orig"
      (PyVal.plist [PyVal.pstr "a", PyVal.pstr "b", PyVal.pstr "c"]) "a" "b" "c").1
      (by decide)
  · exact (variation_shortfall_padding "MCQ" "orig" (PyVal.plist []) "a" "b" "c").2
      (by decide)

/-! ## Claim C6 — chapter-level verdict -/

theorem overallPassLoop_eq_all (verifs : List TopicVerification) :
    overallPassLoop verifs =
      verifs.all (fun v =>
        !(decide (v.overall_quality = Quality.poor) ||
            decide (v.overall_quality = Quality.fair)) && !v.has_duplicates) := by
  induction verifs with
  | nil => rfl
  | cons v rest ih =>
    simp only [overallPassLoop, List.all_cons]
    by_cases h1 : v.overall_quality = Quality.poor ∨ v.overall_quality = Quality.fair
    · rw [if_pos h1]
      rcases h1 with h | h <;> simp [h]
    · rw [if_neg h1]
      push_neg at h1
      by_cases h2 : v.has_duplicates <;> simp [h1.1, h1.2, h2, ih]

/-- C6: in `verify_chapter_questions` (`verify.py`), the chapter verdict
equals the conjunction over all topics of (quality not poor/fair) and
(no duplicates); in particular one poor/fair topic, or one topic with
duplicates, forces `overall_pass = false`. -/
theorem verify_overall_pass_characterization (chapter_name : String)
    (verifs : List TopicVerification) :
    (verifyChapterQuestions chapter_name verifs).overall_pass =
      verifs.all (fun v =>
        !(decide (v.overall_quality = Quality.poor) ||
            decide (v.overall_quality = Quality.fair)) && !v.has_duplicates) ∧
    (∀ v ∈ verifs, (v.overall_quality = Quality.poor ∨ v.overall_quality = Quality.fair) →
      (verifyChapterQuestions chapter_name verifs).overall_pass = false) ∧
    (∀ v ∈ verifs, v.has_duplicates = true →
      (verifyChapterQuestions chapter_name verifs).overall_pass = false) := by
  refine ⟨overallPassLoop_eq_all verifs, ?_, ?_⟩
  · intro v hv hq
    show overallPassLoop verifs = false
    rw [overallPassLoop_eq_all verifs]
    refine List.all_eq_false.mpr ⟨v, hv, ?_⟩
    rcases hq with h | h <;> simp [h]
  · intro v hv hd
    show overallPassLoop verifs = false
    rw [overallPassLoop_eq_all verifs]
    exact List.all_eq_false.mpr ⟨v, hv, by simp [hd]⟩

/-- C6 witness: a single poor-quality topic makes the chapter verdict
fail. -/
theorem verify_overall_pass_characterization_witness :
    (verifyChapterQuestions "ch"
      [{ topic := "t", overall_quality := Quality.poor, has_duplicates := false }]).overall_pass
      = false := by
  exact (verify_overall_pass_characterization "ch"
      [{ topic := "t", overall_quality := Quality.poor, has_duplicates := false }]).2.1
    _ (List.mem_singleton.mpr rfl) (Or.inl rfl)

/-! ## Claim C8 — retry exhaustion in `generate_structured` -/

theorem generateStructuredGo_all_fail {α : Type} (oracle : Nat → Except String α)
    (errf : Nat → String) (h : ∀ i, oracle i = .error (errf i)) :
    ∀ (r a : Nat), 0 < r → generateStructuredGo oracle a r =
      (some (.error ("Failed to generate valid response: " ++ errf (a + r - 1))), r) := by
  intro r
  induction r with
  | zero => intro a h0; omega
  | succ r ih =>
    intro a _
    simp only [generateStructuredGo, h a]
    by_cases hr : r = 0
    · subst hr
      simp
    · have hrec := ih (a + 1) (Nat.pos_of_ne_zero hr)
      have harith : a + 1 + r - 1 = a + (r + 1) - 1 := by omega
      rw [harith] at hrec
      simp [hr, hrec]

/-- C8: `LLMClient.generate_structured` (`llm_call.py`) makes exactly
`max_retries` independent model attempts when every attempt fails, and
then raises a `GenerationError` (the spec's name for the raised
`ValueError`) carrying the last underlying error; with the default
`max_retries = 3` a permanently failing call makes exactly 3 attempts. -/
theorem generate_structured_retry_exhaustion {α : Type} (oracle : Nat → Except String α)
    (errf : Nat → String) (h : ∀ i, oracle i = .error (errf i)) :
    (∀ m, 0 < m → generateStructured oracle m =
      (some (.error ("Failed to generate valid response: " ++ errf (m - 1))), m)) ∧
    generateStructured oracle 3 =
      (some (.error ("Failed to generate valid response: " ++ errf 2)), 3) := by
  have hmain : ∀ m, 0 < m → generateStructured oracle m =
      (some (.error ("Failed to generate valid response: " ++ errf (m - 1))), m) := by
    intro m hm
    have := generateStructuredGo_all_fail oracle errf h m 0 hm
    simpa [generateStructured] using this
  exact ⟨hmain, hmain 3 (by omega)⟩

/-- C8 witness: a concretely always-failing oracle with retry budget 3
makes exactly 3 attempts and surfaces the last attempt's error. -/
theorem generate_structured_retry_exhaustion_witness :
    generateStructured (α := Nat) (fun i => .error (toString i)) 3 =
      (some (.error "Failed to generate valid response: 2"), 3) := by
  have h := (generate_structured_retry_exhaustion (α := Nat)
      (fun i => .error (toString i)) (fun i => toString i) (fun i => rfl)).2
  simpa using h

/-! ## Claim C4 — variation-stage idempotence -/

theorem updateQuestionsVars_cons {Q : Type} (getV : Q → List String)
    (setV : Q → List String → Q) (gen : Nat → List String) (q : Q) (qs : List Q) (n : Nat) :
    updateQuestionsVars getV setV gen (q :: qs) n =
      ((updateQuestionVars getV setV gen q n).1 ::
          (updateQuestionsVars getV setV gen qs (updateQuestionVars getV setV gen q n).2).1,
        (updateQuestionsVars getV setV gen qs (updateQuestionVars getV setV gen q n).2).2) :=
  rfl

theorem updateGroupsVars_cons {Q : Type} (getV : Q → List String)
    (setV : Q → List String → Q) (gen : Nat → List String) (g : BloomGroup Q)
    (gs : List (BloomGroup Q)) (n : Nat) :
    updateGroupsVars getV setV gen (g :: gs) n =
      ({ g with questions := (updateQuestionsVars getV setV gen g.questions n).1 } ::
          (updateGroupsVars getV setV gen gs
            (updateQuestionsVars getV setV gen g.questions n).2).1,
        (updateGroupsVars getV setV gen gs
          (updateQuestionsVars getV setV gen g.questions n).2).2) :=
  rfl

theorem addVariationsToQuestionsList_cons (gen : Nat → List String) (t : TopicQuestions)
    (ts : List TopicQuestions) (n : Nat) :
    addVariationsToTopics gen (t :: ts) n =
      ((addVariationsToTopic gen t n).1 ::
          (addVariationsToTopics gen ts (addVariationsToTopic gen t n).2).1,
        (addVariationsToTopics gen ts (addVariationsToTopic gen t n).2).2) :=
  rfl

theorem updateQuestionVars_skip {Q : Type} (getV : Q → List String)
    (setV : Q → List String → Q) (gen : Nat → List String) (q : Q) (n : Nat)
    (h : getV q ≠ []) : updateQuestionVars getV setV gen q n = (q, n) := by
  simp [updateQuestionVars, h]

theorem updateQuestionsVars_id {Q : Type} (getV : Q → List String)
    (setV : Q → List String → Q) (gen : Nat → List String) :
    ∀ (qs : List Q) (n : Nat), (∀ q ∈ qs, getV q ≠ []) →
      updateQuestionsVars getV setV gen qs n = (qs, n) := by
  intro qs
  induction qs with
  | nil => intro n _; rfl
  | cons q qs ih =>
    intro n h
    rw [updateQuestionsVars_cons, updateQuestionVars_skip getV setV gen q n
      (h q (List.mem_cons_self q qs))]
    simp [ih n (fun x hx => h x (List.mem_cons_of_mem q hx))]

theorem updateGroupsVars_id {Q : Type} (getV : Q → List String)
    (setV : Q → List String → Q) (gen : Nat → List String) :
    ∀ (gs : List (BloomGroup Q)) (n : Nat),
      (∀ g ∈ gs, ∀ q ∈ g.questions, getV q ≠ []) →
      updateGroupsVars getV setV gen gs n = (gs, n) := by
  intro gs
  induction gs with
  | nil => intro n _; rfl
  | cons g gs ih =>
    intro n h
    rw [updateGroupsVars_cons, updateQuestionsVars_id getV setV gen g.questions n
      (h g (List.mem_cons_self g gs))]
    simp [ih n (fun x hx => h x (List.mem_cons_of_mem g hx))]

theorem addVariationsToTopic_id (gen : Nat → List String) (t : TopicQuestions) (n : Nat)
    (h : t.allHaveVariations = true) : addVariationsToTopic gen t n = (t, n) := by
  simp only [TopicQuestions.allHaveVariations, Bool.and_eq_true, List.all_eq_true] at h
  obtain ⟨⟨⟨h1, h2⟩, h3⟩, h4⟩ := h
  simp only [addVariationsToTopic]
  rw [updateGroupsVars_id _ _ _ t.MCQs n
      (fun g hg q hq => by simpa using h1 g hg q hq),
    updateGroupsVars_id _ _ _ t.fill_in_the_blanks n
      (fun g hg q hq => by simpa using h2 g hg q hq),
    updateGroupsVars_id _ _ _ t.short_answer n
      (fun g hg q hq => by simpa using h3 g hg q hq),
    updateGroupsVars_id _ _ _ t.long_answer n
      (fun g hg q hq => by simpa using h4 g hg q hq)]

theorem addVariationsToTopics_id (gen : Nat → List String) :
    ∀ (ts : List TopicQuestions) (n : Nat),
      (∀ t ∈ ts, t.allHaveVariations = true) →
      addVariationsToTopics gen ts n = (ts, n) := by
  intro ts
  induction ts with
  | nil => intro n _; rfl
  | cons t ts ih =>
    intro n h
    rw [addVariationsToQuestionsList_cons,
      addVariationsToTopic_id gen t n (h t (List.mem_cons_self t ts))]
    simp [ih n (fun x hx => h x (List.mem_cons_of_mem t hx))]

theorem addVariationsToChapter_id (gen : Nat → List String) (c : ChapterQuestions) (n : Nat)
    (h : c.allHaveVariations = true) : addVariationsToChapter gen c n = (c, n) := by
  simp only [ChapterQuestions.allHaveVariations, List.all_eq_true] at h
  simp only [addVariationsToChapter]
  rw [addVariationsToTopics_id gen c.topics n h]

theorem updateQuestionVars_post {Q : Type} (getV : Q → List String)
    (setV : Q → List String → Q) (gen : Nat → List String) (q : Q) (n : Nat)
    (law : ∀ q v, getV (setV q v) = v) (hgen : ∀ k, gen k ≠ []) :
    getV (updateQuestionVars getV setV gen q n).1 ≠ [] := by
  by_cases h : getV q = []
  · simp [updateQuestionVars, h, law, hgen n]
  · simp [updateQuestionVars, h]

theorem updateQuestionsVars_post {Q : Type} (getV : Q → List String)
    (setV : Q → List String → Q) (gen : Nat → List String)
    (law : ∀ q v, getV (setV q v) = v) (hgen : ∀ k, gen k ≠ []) :
    ∀ (qs : List Q) (n : Nat) (q' : Q),
      q' ∈ (updateQuestionsVars getV setV gen qs n).1 → getV q' ≠ [] := by
  intro qs
  induction qs with
  | nil => intro n q' hq'; simp [updateQuestionsVars] at hq'
  | cons q qs ih =>
    intro n q' hq'
    rw [updateQuestionsVars_cons] at hq'
    rcases List.mem_cons.mp hq' with h | h
    · rw [h]
      exact updateQuestionVars_post getV setV gen q n law hgen
    · exact ih _ q' h

theorem updateGroupsVars_post {Q : Type} (getV : Q → List String)
    (setV : Q → List String → Q) (gen : Nat → List String)
    (law : ∀ q v, getV (setV q v) = v) (hgen : ∀ k, gen k ≠ []) :
    ∀ (gs : List (BloomGroup Q)) (n : Nat) (g' : BloomGroup Q),
      g' ∈ (updateGroupsVars getV setV gen gs n).1 →
      ∀ q' ∈ g'.questions, getV q' ≠ [] := by
  intro gs
  induction gs with
  | nil => intro n g' hg'; simp [updateGroupsVars] at hg'
  | cons g gs ih =>
    intro n g' hg' q' hq'
    rw [updateGroupsVars_cons] at hg'
    rcases List.mem_cons.mp hg' with h | h
    · subst h
      exact updateQuestionsVars_post getV setV gen law hgen g.questions n q' hq'
    · exact ih _ g' h q' hq'

theorem addVariationsToTopic_post (gen : Nat → List String) (t : TopicQuestions) (n : Nat)
    (hgen : ∀ k, gen k ≠ []) :
    (addVariationsToTopic gen t n).1.allHaveVariations = true := by
  simp only [addVariationsToTopic, TopicQuestions.allHaveVariations, Bool.and_eq_true,
    List.all_eq_true]
  refine ⟨⟨⟨?_, ?_⟩, ?_⟩, ?_⟩
  · intro g hg q hq
    simpa using updateGroupsVars_post _ _ gen (fun _ _ => rfl) hgen t.MCQs n g hg q hq
  · intro g hg q hq
    simpa using updateGroupsVars_post _ _ gen (fun _ _ => rfl) hgen
      t.fill_in_the_blanks _ g hg q hq
  · intro g hg q hq
    simpa using updateGroupsVars_post _ _ gen (fun _ _ => rfl) hgen
      t.short_answer _ g hg q hq
  · intro g hg q hq
    simpa using updateGroupsVars_post _ _ gen (fun _ _ => rfl) hgen
      t.long_answer _ g hg q hq

theorem addVariationsToTopics_post (gen : Nat → List String) (hgen : ∀ k, gen k ≠ []) :
    ∀ (ts : List TopicQuestions) (n : Nat) (t' : TopicQuestions),
      t' ∈ (addVariationsToTopics gen ts n).1 → t'.allHaveVariations = true := by
  intro ts
  induction ts with
  | nil => intro n t' ht'; simp [addVariationsToTopics] at ht'
  | cons t ts ih =>
    intro n t' ht'
    rw [addVariationsToQuestionsList_cons] at ht'
    rcases List.mem_cons.mp ht' with h | h
    · subst h
      exact addVariationsToTopic_post gen t n hgen
    · exact ih _ t' h

theorem addVariationsToChapter_post (gen : Nat → List String) (c : ChapterQuestions)
    (n : Nat) (hgen : ∀ k, gen k ≠ []) :
    (addVariationsToChapter gen c n).1.allHaveVariations = true := by
  simp only [ChapterQuestions.allHaveVariations, List.all_eq_true]
  intro t' ht'
  exact addVariationsToTopics_post gen hgen c.topics n t' (by simpa using ht')

/-- C4: the Variation Stage is idempotent at question granularity: on a
chapter whose every question already carries non-empty `variations`,
`add_variations_to_chapter` issues no model calls (the call counter is
unchanged) and changes nothing; consequently, when the generator returns
non-empty lists, a second run after a first one is the identity and
issues no calls — running the stage twice equals running it once. -/
theorem variation_stage_idempotent :
    (∀ (gen : Nat → List String) (c : ChapterQuestions) (n : Nat),
        c.allHaveVariations = true → addVariationsToChapter gen c n = (c, n)) ∧
    (∀ (gen gen₂ : Nat → List String) (c : ChapterQuestions) (n m : Nat),
        (∀ k, gen k ≠ []) →
        addVariationsToChapter gen₂ (addVariationsToChapter gen c n).1 m =
          ((addVariationsToChapter gen c n).1, m)) := by
  constructor
  · exact fun gen c n h => addVariationsToChapter_id gen c n h
  · intro gen gen₂ c n m hgen
    exact addVariationsToChapter_id gen₂ _ m (addVariationsToChapter_post gen c n hgen)

/-- C4 witness: on a concrete fully-varied chapter the stage is the
identity with zero calls, and re-running after a run with a non-empty
generator changes nothing. -/
theorem variation_stage_idempotent_witness :
    addVariationsToChapter (fun _ => ["w"]) sampleChapterVaried 0 =
      (sampleChapterVaried, 0) ∧
    addVariationsToChapter (fun _ => ["u"])
        (addVariationsToChapter (fun _ => ["w"]) sampleChapterVaried 3).1 0 =
      ((addVariationsToChapter (fun _ => ["w"]) sampleChapterVaried 3).1, 0) := by
  constructor
  · exact variation_stage_idempotent.1 (fun _ => ["w"]) sampleChapterVaried 0 (by decide)
  · exact variation_stage_idempotent.2 (fun _ => ["w"]) (fun _ => ["u"])
      sampleChapterVaried 3 0 (fun k => by simp)

/-! ## Claim C1 — generation-stage failure policy -/

/-- C1 counterexample: the claim states a failing topic is skipped and
the chapter fails only when zero topics succeed.  On the concrete
outcome list `[error, ok]` the stage aborts at the first failure: the
chapter fails (`none`, and `process_chapter` returns `False`) although
the second topic would succeed, and only 1 of the 2 topics is ever
attempted. -/
theorem generation_stage_skip_counterexample :
    (generationStage [Except.error "boom", Except.ok sampleTopicValid]).1 = none ∧
    (generationStage [Except.error "boom", Except.ok sampleTopicValid]).2 = 1 ∧
    ([Except.error "boom", Except.ok sampleTopicValid].any isOkOutcome) = true ∧
    processChapter true
      { questionsExists := false, chapterInfoOk := true, syllabusOk := true,
        chapterFoundInSyllabus := true, topicsList := ["t1", "t2"],
        topicOutcomes := [Except.error "boom", Except.ok sampleTopicValid] } = false := by
  refine ⟨by decide, by decide, by decide, by decide⟩

/-- C1 (amended): the Generation Stage does not skip a failing topic:
`process_chapter` returns `False` as soon as any topic's generation
fails, without attempting the remaining topics, and the chapter
succeeds exactly when every topic succeeds (not merely when at least
one does). -/
theorem generation_stage_aborts_on_first_failure :
    (∀ outcomes : List (Except String TopicQuestions),
        (∀ o ∈ outcomes, isOkOutcome o = true) →
        (generationStage outcomes).1.isSome = true ∧
        (generationStage outcomes).2 = outcomes.length) ∧
    (∀ (pre post : List (Except String TopicQuestions)) (e : String),
        (∀ o ∈ pre, isOkOutcome o = true) →
        generationStage (pre ++ Except.error e :: post) = (none, pre.length + 1)) ∧
    (∀ env : ChapterEnv,
        env.questionsExists = false → env.chapterInfoOk = true → env.syllabusOk = true →
        env.chapterFoundInSyllabus = true → env.topicsList ≠ [] →
        (processChapter true env = true ↔
          (generationStage env.topicOutcomes).1.isSome = true)) := by
  refine ⟨?_, ?_, ?_⟩
  · intro outcomes
    induction outcomes with
    | nil => intro _; exact ⟨rfl, rfl⟩
    | cons o rest ih =>
      intro h
      obtain ⟨q, rfl⟩ : ∃ q, o = Except.ok q := by
        cases o with
        | ok q => exact ⟨q, rfl⟩
        | error e => simpa [isOkOutcome] using h _ (List.mem_cons_self _ _)
      have ihr := ih (fun x hx => h x (List.mem_cons_of_mem _ hx))
      rcases hrest : generationStage rest with ⟨optr, nr⟩
      obtain ⟨qs, rfl⟩ : ∃ qs, optr = some qs := by
        have h1 := ihr.1
        rw [hrest] at h1
        exact Option.isSome_iff_exists.mp h1
      have hn : nr = rest.length := by
        have h2 := ihr.2
        rw [hrest] at h2
        exact h2
      constructor
      · simp only [generationStage, hrest]
        rfl
      · simp only [generationStage, hrest, List.length_cons, hn]
  · intro pre
    induction pre with
    | nil => intro post e _; rfl
    | cons o pre ih =>
      intro post e h
      obtain ⟨q, rfl⟩ : ∃ q, o = Except.ok q := by
        cases o with
        | ok q => exact ⟨q, rfl⟩
        | error e' => simpa [isOkOutcome] using h _ (List.mem_cons_self _ _)
      have ihp := ih post e (fun x hx => h x (List.mem_cons_of_mem _ hx))
      rw [List.cons_append]
      simp only [generationStage]
      rw [ihp]
      simp [List.length_cons]
  · intro env h1 h2 h3 h4 h5
    rcases hg : (generationStage env.topicOutcomes).1 with _ | qs <;>
      simp [processChapter, h1, h2, h3, h4, h5, hg]

/-- C1 amended-claim witness: the all-success and first-failure cases at
concrete inputs. -/
theorem generation_stage_aborts_on_first_failure_witness :
    ((generationStage [Except.ok sampleTopicValid]).1.isSome = true ∧
      (generationStage [Except.ok sampleTopicValid]).2 = 1) ∧
    generationStage [Except.ok sampleTopicValid, Except.error "boom"] = (none, 2) ∧
    processChapter true
      { questionsExists := false, chapterInfoOk := true, syllabusOk := true,
        chapterFoundInSyllabus := true, topicsList := ["t1"],
        topicOutcomes := [Except.ok sampleTopicValid] } = true := by
  refine ⟨?_, ?_, ?_⟩
  · have h := generation_stage_aborts_on_first_failure.1 [Except.ok sampleTopicValid]
      (by intro o ho; simp at ho; simp [ho, isOkOutcome])
    simpa using h
  · have h := generation_stage_aborts_on_first_failure.2.1 [Except.ok sampleTopicValid]
      [] "boom" (by intro o ho; simp at ho; simp [ho, isOkOutcome])
    simpa using h
  · have h := generation_stage_aborts_on_first_failure.2.2
      { questionsExists := false, chapterInfoOk := true, syllabusOk := true,
        chapterFoundInSyllabus := true, topicsList := ["t1"],
        topicOutcomes := [Except.ok sampleTopicValid] }
      rfl rfl rfl rfl (by decide)
    rw [h]
    decide

/-! ## Claim C2 — MCQ schema validation -/

/-- C2 counterexample: schema validation accepts an `MCQQuestion` whose
four options are all equal and whose `answer` matches no option, so
validated values need not have pairwise-distinct options nor an answer
matching exactly one option. -/
theorem mcq_validation_counterexample :
    MCQQuestion.validate badMCQDict =
      some { question := "Q?", options := ["x", "x", "x", "x"], answer := "z",
             explanation := "e", variations := [] } ∧
    ¬ (["x", "x", "x", "x"] : List String).Nodup ∧
    "z" ∉ (["x", "x", "x", "x"] : List String) := by
  refine ⟨by decide, by decide, by decide⟩

/-- C2 (amended): pydantic schema validation of `MCQQuestion` enforces
that `options` has exactly 4 elements (`min_length=4, max_length=4`),
and nothing more: distinctness of the options and membership of the
answer among them are not checked. -/
theorem mcq_validate_options_length (v : PyVal) (q : MCQQuestion)
    (h : MCQQuestion.validate v = some q) : q.options.length = 4 := by
  cases v with
  | pstr s => simp [MCQQuestion.validate] at h
  | pint n => simp [MCQQuestion.validate] at h
  | pbool b => simp [MCQQuestion.validate] at h
  | pnone => simp [MCQQuestion.validate] at h
  | plist xs => simp [MCQQuestion.validate] at h
  | pdict fs =>
    simp only [MCQQuestion.validate] at h
    split at h
    · simp at h
    · split at h
      · simp at h
      · rename_i opts _
        split at h
        · rename_i hlen
          split at h
          · simp at h
          · split at h
            · simp at h
            · split at h
              · simp at h
              · have hq := Option.some.inj h
                subst hq
                have h4 : opts.length = 4 := by omega
                simpa using h4
        · simp at h

/-- C2 witness: the amended length guarantee at a concrete accepted
input. -/
theorem mcq_validate_options_length_witness :
    ∃ q : MCQQuestion,
      MCQQuestion.validate
          (PyVal.pdict
            [("question", PyVal.pstr "Q?"),
             ("options",
               PyVal.plist [PyVal.pstr "w", PyVal.pstr "x", PyVal.pstr "y", PyVal.pstr "z"]),
             ("answer", PyVal.pstr "w"),
             ("explanation", PyVal.pstr "e")]) = some q ∧
      q.options.length = 4 := by
  refine ⟨{ question := "Q?", options := ["w", "x", "y", "z"], answer := "w",
            explanation := "e", variations := [] }, ?_, ?_⟩
  · decide
  · exact mcq_validate_options_length
      (PyVal.pdict
        [("question", PyVal.pstr "Q?"),
         ("options",
           PyVal.plist [PyVal.pstr "w", PyVal.pstr "x", PyVal.pstr "y", PyVal.pstr "z"]),
         ("answer", PyVal.pstr "w"),
         ("explanation", PyVal.pstr "e")])
      { question := "Q?", options := ["w", "x", "y", "z"], answer := "w",
        explanation := "e", variations := [] }
      (by decide)

/-! ## Claim C3 — long-answer reference-content invariant -/

theorem strippedPoints_nil_iff (l : List String) :
    (l.map pyStrip).filter (fun p => p ≠ "") = [] ↔ hasNonblankEntry l = false := by
  simp [hasNonblankEntry, List.filter_eq_nil_iff, List.any_eq_true]

theorem strippedPoints_mem (l : List String) (x : String)
    (hx : x ∈ (l.map pyStrip).filter (fun p => p ≠ "")) : pyStrip x = x ∧ x ≠ "" := by
  have hmem := List.mem_filter.mp hx
  obtain ⟨t, _, rfl⟩ := List.mem_map.mp hmem.1
  exact ⟨pyStrip_idem t, by simpa using hmem.2⟩

/-- C3 counterexample: the validator accepts an input whose
`reference_points` list is non-empty (a single whitespace-only entry)
while `reference_answer` is also non-empty, leaving both present: the
claimed "exactly one non-empty" and "3–6 entries when non-empty"
invariants fail on this accepted value. -/
theorem long_answer_validator_counterexample :
    ensureReferenceContent badLongAnswer = some badLongAnswer ∧
    badLongAnswer.reference_points ≠ [] ∧
    ¬ (3 ≤ badLongAnswer.reference_points.length) ∧
    badLongAnswer.reference_answer = some "ans" := by
  refine ⟨by decide, by decide, by decide, by decide⟩

/-- C3 (amended): read "non-empty" as "containing a non-blank entry":
for every accepted `LongAnswerQuestion`, exactly one of
(`reference_points` has a non-blank entry, `reference_answer` is
non-blank) holds; when `reference_points` has a non-blank entry it has
3–6 entries and `reference_answer` is blank; and inputs where both are
blank are rejected.  (A non-empty list of all-blank entries survives the
legacy branch untouched, which is what the counterexample exhibits.) -/
theorem long_answer_invariant_amended :
    (∀ m m' : LongAnswerQuestion, ensureReferenceContent m = some m' →
      ((hasNonblankEntry m'.reference_points = true ∧
          optNonblank m'.reference_answer = false) ∨
        (hasNonblankEntry m'.reference_points = false ∧
          optNonblank m'.reference_answer = true)) ∧
      (hasNonblankEntry m'.reference_points = true →
        3 ≤ m'.reference_points.length ∧ m'.reference_points.length ≤ 6)) ∧
    (∀ m : LongAnswerQuestion, hasNonblankEntry m.reference_points = false →
      optNonblank m.reference_answer = false → ensureReferenceContent m = none) := by
  constructor
  · intro m m' h
    simp only [ensureReferenceContent] at h
    split at h
    · rename_i hp
      split at h
      · rename_i hlen
        have hm' := Option.some.inj h
        subst hm'
        have hhead : hasNonblankEntry
            ((m.reference_points.map pyStrip).filter (fun p => p ≠ "")) = true := by
          obtain ⟨x, xs, hx⟩ : ∃ x xs,
              (m.reference_points.map pyStrip).filter (fun p => p ≠ "") = x :: xs := by
            cases hc : (m.reference_points.map pyStrip).filter (fun p => p ≠ "") with
            | nil => exact absurd hc hp
            | cons a as => exact ⟨a, as, rfl⟩
          have hx' := strippedPoints_mem m.reference_points x
            (by rw [hx]; exact List.mem_cons_self x xs)
          simp only [hasNonblankEntry, hx, List.any_cons]
          simp [hx'.1, hx'.2]
        have hans : optNonblank
            (if pyTruthyOptStr m.reference_answer then some ""
              else m.reference_answer) = false := by
          by_cases ht : pyTruthyOptStr m.reference_answer
          · simp only [ht, if_true]
            decide
          · simp only [ht, if_false]
            cases hra : m.reference_answer with
            | none => rfl
            | some s =>
              have hs : s = "" := by
                by_contra hs
                exact ht (by simp [pyTruthyOptStr, hra, hs])
              subst hs
              decide
        refine ⟨Or.inl ⟨hhead, hans⟩, fun _ => ⟨hlen.1, hlen.2⟩⟩
      · simp at h
    · rename_i hp
      split at h
      · rename_i hcond
        have hm' := Option.some.inj h
        subst hm'
        have hempty : hasNonblankEntry m.reference_points = false :=
          (strippedPoints_nil_iff m.reference_points).mp (by simpa using hp)
        have hans : optNonblank m.reference_answer = true := by
          obtain ⟨ht, hstrip⟩ := hcond
          cases hra : m.reference_answer with
          | none => rw [hra] at ht; simp [pyTruthyOptStr] at ht
          | some s =>
            rw [hra] at hstrip
            simp only [Option.getD_some] at hstrip
            simp [optNonblank, hstrip]
        refine ⟨Or.inr ⟨hempty, hans⟩, fun habs => absurd habs (by simp [hempty])⟩
      · simp at h
  · intro m h1 h2
    simp only [ensureReferenceContent]
    rw [if_neg (by simpa using (strippedPoints_nil_iff m.reference_points).mpr h1)]
    rw [if_neg ?_]
    intro hcond
    obtain ⟨ht, hstrip⟩ := hcond
    cases hra : m.reference_answer with
    | none => rw [hra] at ht; simp [pyTruthyOptStr] at ht
    | some s =>
      rw [hra] at hstrip h2
      simp only [Option.getD_some] at hstrip
      simp [optNonblank, hstrip] at h2

/-- C3 witness: the amended invariant applied to a concrete accepted
input (three reference points, legacy answer cleared) and a concrete
rejected input (everything blank). -/
theorem long_answer_invariant_amended_witness :
    (3 ≤ (({ question := "q", reference_points := ["p1", "p2", "p3"],
             reference_answer := some "", variations := [] } :
              LongAnswerQuestion)).reference_points.length ∧
      (({ question := "q", reference_points := ["p1", "p2", "p3"],
          reference_answer := some "", variations := [] } :
            LongAnswerQuestion)).reference_points.length ≤ 6) ∧
    ensureReferenceContent
        { question := "q", reference_points := ["   "], reference_answer := some " ",
          variations := [] } = none := by
  constructor
  · exact (long_answer_invariant_amended.1
      { question := "q", reference_points := ["p1", "p2", "p3"],
        reference_answer := some "x", variations := [] }
      { question := "q", reference_points := ["p1", "p2", "p3"],
        reference_answer := some "", variations := [] }
      (by decide)).2 (by decide)
  · exact long_answer_invariant_amended.2
      { question := "q", reference_points := ["   "], reference_answer := some " ",
        variations := [] } (by decide) (by decide)

/-! ## Claim C9 — `total_topics` invariant -/

/-- C9 counterexample: pydantic validation accepts a `ChapterQuestions`
whose `total_topics` is 5 while `topics` has 2 entries — the claimed
`total_topics = len(topics)` invariant is not enforced by validation. -/
theorem chapter_total_topics_counterexample :
    badChapter.validShape = true ∧
    badChapter.total_topics ≠ (badChapter.topics.length : Int) := by
  refine ⟨by decide, by decide⟩

/-- C9 (amended): validation of `ChapterQuestions` enforces only
`total_topics ≥ 1` and `topics` non-empty; the equality
`total_topics = len(topics)` is not checked by validation, but it does
hold for every chapter `process_chapter` itself constructs, since the
constructor passes `total_topics=len(topic_questions)`. -/
theorem chapter_total_topics_amended :
    (∀ c : ChapterQuestions, c.validShape = true →
      1 ≤ c.total_topics ∧ c.topics ≠ []) ∧
    (∀ (cn sn chn : String) (tqs : List TopicQuestions),
      (buildChapterQuestions cn sn chn tqs).total_topics =
        ((buildChapterQuestions cn sn chn tqs).topics.length : Int)) := by
  constructor
  · intro c h
    simp only [ChapterQuestions.validShape, Bool.and_eq_true, decide_eq_true_eq] at h
    refine ⟨h.1.1, ?_⟩
    intro hnil
    rw [hnil] at h
    simpa using h.1.2
  · intro cn sn chn tqs
    rfl

/-- C9 witness: the amended guarantees at a concrete validated chapter
and a concrete constructed chapter. -/
theorem chapter_total_topics_amended_witness :
    (1 ≤ sampleChapterVaried.total_topics ∧ sampleChapterVaried.topics ≠ []) ∧
    (buildChapterQuestions "Class 10" "Science" "ch" [sampleTopicValid]).total_topics =
      ((buildChapterQuestions "Class 10" "Science" "ch"
        [sampleTopicValid]).topics.length : Int) := by
  constructor
  · exact chapter_total_topics_amended.1 sampleChapterVaried (by decide)
  · exact chapter_total_topics_amended.2 "Class 10" "Science" "ch" [sampleTopicValid]

/-! ## Claim C10 — skip accounting in the multi-chapter summary -/

theorem mainTally_foldl (runs : List ChapterRun) :
    ∀ acc : Nat × Nat × Nat,
      runs.foldl
        (fun acc r =>
          match r.success with
          | some true =>
            if r.questionsSize > 0 then (acc.1 + 1, acc.2.1, acc.2.2)
            else (acc.1, acc.2.1 + 1, acc.2.2)
          | some false => (acc.1, acc.2.1, acc.2.2 + 1)
          | none => (acc.1, acc.2.1, acc.2.2 + 1)) acc =
      (acc.1 + (runs.filter (fun r =>
          r.success = some true && r.questionsSize > 0)).length,
        acc.2.1 + (runs.filter (fun r =>
          r.success = some true && r.questionsSize = 0)).length,
        acc.2.2 + (runs.filter (fun r =>
          r.success ≠ some true)).length) := by
  induction runs with
  | nil => intro acc; simp
  | cons r rs ih =>
    intro acc
    rcases hs : r.success with _ | b
    · simp only [List.foldl_cons, hs, List.filter_cons, hs]
      rw [ih]
      simp [hs]
      omega
    · cases b
      · simp only [List.foldl_cons, hs, List.filter_cons, hs]
        rw [ih]
        simp [hs]
        omega
      · rcases Nat.eq_zero_or_pos r.questionsSize with hz | hz
        · simp only [List.foldl_cons, hs, hz, List.filter_cons]
          rw [ih]
          simp [hs, hz]
          omega
        · simp only [List.foldl_cons, hs, List.filter_cons]
          rw [ih]
          simp [hs, hz, Nat.pos_iff_ne_zero.mp hz]
          omega

/-- C10: a chapter skipped because a non-empty `questions.json` exists
counts as processed, not skipped: `process_chapter` returns `True` on
the skip path regardless of anything else, a successful run over a
non-empty `questions.json` increments `processed`, and `skipped` is
incremented exactly for the successful runs whose `questions.json` has
size zero. -/
theorem skipped_chapter_counted_processed :
    (∀ env : ChapterEnv, env.questionsExists = true → processChapter true env = true) ∧
    (∀ n : Nat, 0 < n →
      mainTally [{ success := some true, questionsSize := n }] = (1, 0, 0)) ∧
    (∀ runs : List ChapterRun,
      (mainTally runs).2.1 =
        (runs.filter (fun r => r.success = some true && r.questionsSize = 0)).length) := by
  refine ⟨?_, ?_, ?_⟩
  · intro env h
    simp [processChapter, h]
  · intro n hn
    simp [mainTally, hn, Nat.pos_iff_ne_zero.mp hn]
  · intro runs
    show (runs.foldl _ (0, 0, 0)).2.1 = _
    rw [mainTally_foldl runs (0, 0, 0)]
    simp

/-- C10 witness: a concrete skipped chapter (existing non-empty
`questions.json`) returns `True` and lands in the processed column. -/
theorem skipped_chapter_counted_processed_witness :
    processChapter true
      { questionsExists := true, chapterInfoOk := false, syllabusOk := false,
        chapterFoundInSyllabus := false, topicsList := [],
        topicOutcomes := [Except.error "unused"] } = true ∧
    mainTally [{ success := some true, questionsSize := 2481 }] = (1, 0, 0) := by
  constructor
  · exact skipped_chapter_counted_processed.1 _ rfl
  · exact skipped_chapter_counted_processed.2.1 2481 (by omega)
